import Mathlib

/-!
Shallow embedding of `src/services/polling.ts` (class `PollingService`) of the
gh-telegram-stars-bot repository, together with proofs of the spec's claims
about the polling/notification cycle.

Modelling conventions:
* The collaborators (DatabaseService, GitHubService, TelegramBotService) are
  abstracted as an environment `Env` of `Except`-returning functions, mirroring
  the fact that each `await`ed call either resolves with a value or rejects
  with an error.
* Every observable action of a cycle is recorded in a trace of `Effect`s:
  quota queries, per-entity fetch attempts, store writes, star-event records,
  inter-batch sleeps, subscriber lookups and notification sends.
* The single-threaded cooperative runtime is modelled by deterministic
  sequential execution; `Promise.all` over a batch whose promises each carry
  their own `try/catch` is modelled as processing the batch elements in array
  order, each element's outcome independent of the others (no element can
  reject the combined promise, since every per-element error is caught).
* Logging (`logger.*`) is out of scope per the spec and is not modelled.
-/

/-- Model of the `Repository` row as used by `pollRepositories` (fields read there:
`id`, `full_name`, `html_url`, `stars_count`). -/
structure Repository where
  id : Nat
  full_name : String
  html_url : String
  stars_count : Nat
deriving DecidableEq, Repr

/-- Model of the `StarChangeEvent` interface from `polling.ts`. -/
structure StarChangeEvent where
  repositoryId : Nat
  fullName : String
  htmlUrl : String
  previousStars : Nat
  currentStars : Nat
  starsGained : Nat
deriving DecidableEq, Repr

/-- Result of `GitHubService.getRateLimitStatus` (fields used by the poller). -/
structure RateLimitStatus where
  remaining : Nat
  limit : Nat
deriving DecidableEq, Repr

/-- Observable actions performed by a polling cycle, in execution order. -/
inductive Effect where
  /-- Marks that `github.getRateLimitStatus()` was queried. -/
  | quotaCheck : Effect
  /-- Marks that `github.getRepositoryStarCount(owner, repoName)` was attempted for a repository. -/
  | fetch (repoId : Nat) : Effect
  /-- Marks that `db.updateRepositoryStarsCount(id, stars)` committed a new value (store write). -/
  | write (repoId stars : Nat) : Effect
  /-- Marks that `db.createStarEvent(id, new, prev)` recorded a Delta Event. -/
  | record (repoId newStars prevStars : Nat) : Effect
  /-- Marks a `sleep(ms)` between batches. -/
  | sleep (ms : Nat) : Effect
  /-- Marks that `db.getSubscribersForRepository(id)` was queried during fan-out. -/
  | subsQuery (repoId : Nat) : Effect
  /-- Marks that `bot.sendStarNotification(chatId, ...)` resolved successfully. -/
  | send (chatId : Int) (repoId gained total : Nat) : Effect
  /-- Marks that `bot.sendStarNotification(chatId, ...)` rejected (caught per subscriber). -/
  | sendFail (chatId : Int) (repoId : Nat) : Effect
deriving DecidableEq, Repr

/-- Behaviour of the external collaborators during one cycle.  Each field
models the corresponding `await`ed call: `Except.ok` is a resolved promise,
`Except.error` a rejected one. -/
structure Env where
  /-- Result of `db.getAllRepositories()`: the non-archived repositories. -/
  getAllRepositories : Except String (List Repository)
  /-- Result of `github.getRateLimitStatus()`. -/
  getRateLimitStatus : Except String RateLimitStatus
  /-- Result of `github.getRepositoryStarCount(owner, repoName)`, keyed by the
  repository's `full_name` (the source splits `full_name` on the slash and
  passes the two halves). -/
  getRepositoryStarCount : String → Except String Nat
  /-- Result of `db.updateRepositoryStarsCount(id, stars)`. -/
  updateRepositoryStarsCount : Nat → Nat → Except String Unit
  /-- Result of `db.createStarEvent(id, newStars, prevStars)`. -/
  createStarEvent : Nat → Nat → Nat → Except String Unit
  /-- Result of `db.getSubscribersForRepository(id)`: subscriber chat ids. -/
  getSubscribersForRepository : Nat → Except String (List Int)
  /-- Result of `bot.sendStarNotification(chatId, fullName, htmlUrl, gained, total)`. -/
  sendStarNotification : Int → String → String → Nat → Nat → Except String Unit
  /-- Whether `setBotService` has been called (`this.bot !== null`). -/
  hasBot : Bool

/-- Embedding of `chunkArray(array, chunkSize)` from `polling.ts`:
`for (i = 0; i < array.length; i += chunkSize) chunks.push(array.slice(i, i + chunkSize))`.
For `chunkSize = 0` the source loop would not terminate; the model returns `[]`
there (the source only ever calls it with `chunkSize = 10`). -/
def chunkArray {α : Type} : List α → Nat → List (List α)
  | [], _ => []
  | x :: xs, k =>
    if k = 0 then []
    else (x :: xs).take k :: chunkArray ((x :: xs).drop k) k
termination_by l _ => l.length
decreasing_by
  simp only [List.length_drop, List.length_cons]
  omega

/-- One entity's work inside `batch.map(async (repo) => { try ... catch ... })`:
fetch the current star count, and on change write the store; on strict
increase additionally record a star event and produce a `StarChangeEvent`.
Any rejection inside the `try` is caught (logged) and yields no event.
Returns the effect trace of this entity and its optional event. -/
def processRepo (env : Env) (repo : Repository) :
    List Effect × Option StarChangeEvent :=
  match env.getRepositoryStarCount repo.full_name with
  | .error _ => ([Effect.fetch repo.id], none)
  | .ok currentStars =>
    if currentStars = repo.stars_count then
      ([Effect.fetch repo.id], none)
    else
      match env.updateRepositoryStarsCount repo.id currentStars with
      | .error _ => ([Effect.fetch repo.id], none)
      | .ok _ =>
        if repo.stars_count < currentStars then
          match env.createStarEvent repo.id currentStars repo.stars_count with
          | .error _ => ([Effect.fetch repo.id, Effect.write repo.id currentStars], none)
          | .ok _ =>
            ([Effect.fetch repo.id, Effect.write repo.id currentStars,
              Effect.record repo.id currentStars repo.stars_count],
             some { repositoryId := repo.id
                    fullName := repo.full_name
                    htmlUrl := repo.html_url
                    previousStars := repo.stars_count
                    currentStars := currentStars
                    starsGained := currentStars - repo.stars_count })
        else
          ([Effect.fetch repo.id, Effect.write repo.id currentStars], none)

/-- Embedding of `await Promise.all(batchPromises)` for one batch: every element runs its
own caught computation; the combined trace and the accumulated events. -/
def processBatch (env : Env) (batch : List Repository) :
    List Effect × List StarChangeEvent :=
  (batch.flatMap (fun r => (processRepo env r).1),
   batch.filterMap (fun r => (processRepo env r).2))

/-- The `for (let i = 0; i < batches.length; i++)` loop: batches strictly in
sequence, with `sleep(1000)` after every batch except the last. -/
def processBatches (env : Env) : List (List Repository) → List Effect × List StarChangeEvent
  | [] => ([], [])
  | [b] => processBatch env b
  | b :: b' :: bs =>
    let head := processBatch env b
    let rest := processBatches env (b' :: bs)
    (head.1 ++ Effect.sleep 1000 :: rest.1, head.2 ++ rest.2)

/-- The body of the `try` block of `pollRepositories` (lines 44–145): list the
repositories, early-return on none, check the quota gate, then process the
batches.  The `Except` layer carries a rejection of `getAllRepositories` or
`getRateLimitStatus` out to the surrounding `catch`. -/
def pollTry (env : Env) : List Effect × Except String (List StarChangeEvent) :=
  match env.getAllRepositories with
  | .error e => ([], .error e)
  | .ok repositories =>
    if repositories.length = 0 then
      ([], .ok [])
    else
      match env.getRateLimitStatus with
      | .error e => ([Effect.quotaCheck], .error e)
      | .ok rateLimitStatus =>
        if rateLimitStatus.remaining < repositories.length then
          ([Effect.quotaCheck], .ok [])
        else
          let batches := chunkArray repositories 10
          let r := processBatches env batches
          (Effect.quotaCheck :: r.1, .ok r.2)

/-- Embedding of `pollRepositories()`: re-entrancy guard on `isPolling`, then the guarded
`try/catch/finally`.  Input `isPolling` is the flag at call time; the result
is `(events, trace, flag after return)`.  The outer `Except` is the function's
own promise: `.ok` means it resolved (the `catch` at lines 147–150 converts
any pipeline rejection into a resolved `[]`). -/
def pollRepositories (env : Env) (isPolling : Bool) :
    Except String (List StarChangeEvent × List Effect × Bool) :=
  if isPolling then
    -- guard hit: log a warning and return [] without touching the flag
    .ok ([], [], isPolling)
  else
    -- this.isPolling = true; try { ... } catch { return [] } finally { this.isPolling = false }
    let r := pollTry env
    match r.2 with
    | .ok events => .ok (events, r.1, false)
    | .error _ => .ok ([], r.1, false)

/-- Fan-out for one `StarChangeEvent` (body of the `for (const event of ...)`
loop): resolve the subscriber set, then `Promise.all` over per-subscriber
sends, each send wrapped in its own `try/catch`; the whole event body is
additionally wrapped in a `try/catch`, so a failing subscriber lookup is also
caught. -/
def notifyEvent (env : Env) (event : StarChangeEvent) : List Effect :=
  match env.getSubscribersForRepository event.repositoryId with
  | .error _ => [Effect.subsQuery event.repositoryId]
  | .ok subscribers =>
    Effect.subsQuery event.repositoryId ::
      subscribers.map (fun chatId =>
        match env.sendStarNotification chatId event.fullName event.htmlUrl
            event.starsGained event.currentStars with
        | .ok _ => Effect.send chatId event.repositoryId event.starsGained event.currentStars
        | .error _ => Effect.sendFail chatId event.repositoryId)

/-- Embedding of `notifySubscribers(starChangeEvents)`: early-return when no bot is set or
there are no events; otherwise process the events sequentially. -/
def notifySubscribers (env : Env) (starChangeEvents : List StarChangeEvent) : List Effect :=
  if !env.hasBot || starChangeEvents.length = 0 then []
  else starChangeEvents.flatMap (notifyEvent env)

/-- Embedding of `runPollingCycle()`: poll, then notify, inside a `try/catch`; resolves with
the cycle's trace and the flag after the run.  The `catch` branch converts any
rejection into a resolved cycle (it only logs). -/
def runPollingCycle (env : Env) (isPolling : Bool) :
    Except String (List Effect × Bool) :=
  match pollRepositories env isPolling with
  | .ok (events, trace, flag) =>
    .ok (trace ++ notifySubscribers env events, flag)
  | .error _ =>
    -- catch: endOperation + logger.error only; nothing rethrown
    .ok ([], isPolling)

/-- Store writes (`updateRepositoryStarsCount`) in a trace. -/
def Effect.isWrite : Effect → Bool
  | .write _ _ => true
  | _ => false

/-- Delta Event records (`createStarEvent`) in a trace. -/
def Effect.isRecord : Effect → Bool
  | .record _ _ _ => true
  | _ => false

/-- Fetch attempts (`getRepositoryStarCount`) in a trace. -/
def Effect.isFetch : Effect → Bool
  | .fetch _ => true
  | _ => false

/-- Inter-batch sleeps in a trace. -/
def Effect.isSleep : Effect → Bool
  | .sleep _ => true
  | _ => false

/-- Quota queries (`getRateLimitStatus`) in a trace. -/
def Effect.isQuotaCheck : Effect → Bool
  | .quotaCheck => true
  | _ => false

def countWrites (t : List Effect) : Nat := (t.filter Effect.isWrite).length
def countRecords (t : List Effect) : Nat := (t.filter Effect.isRecord).length
def countFetches (t : List Effect) : Nat := (t.filter Effect.isFetch).length
def countSleeps (t : List Effect) : Nat := (t.filter Effect.isSleep).length
def countQuotaChecks (t : List Effect) : Nat := (t.filter Effect.isQuotaCheck).length

/-! ### Concrete collaborator behaviours, used to instantiate the theorems -/

/-- A sample repository row. -/
def sampleRepo (i stars : Nat) : Repository :=
  { id := i, full_name := "owner/repo", html_url := "https://github.com/owner/repo",
    stars_count := stars }

/-- A repository whose external reference no longer resolves. -/
def badRepo : Repository :=
  { id := 2, full_name := "bad/repo", html_url := "https://github.com/bad/repo",
    stars_count := 10 }

/-- Collaborators for the end-to-end delta scenario: one repository stored at
100 stars, the API now reports 103, every store call succeeds. -/
def envDelta : Env :=
  { getAllRepositories := .ok [sampleRepo 1 100]
    getRateLimitStatus := .ok { remaining := 5000, limit := 5000 }
    getRepositoryStarCount := fun _ => .ok 103
    updateRepositoryStarsCount := fun _ _ => .ok ()
    createStarEvent := fun _ _ _ => .ok ()
    getSubscribersForRepository := fun _ => .ok []
    sendStarNotification := fun _ _ _ _ _ => .ok ()
    hasBot := true }

/-- Six tracked repositories, to instantiate the quota gate. -/
def repos6 : List Repository := (List.range 6).map (fun i => sampleRepo i 10)

/-- Collaborators for the quota-gate scenario: 6 tracked repositories but only
5 remaining API calls. -/
def envQuota : Env :=
  { getAllRepositories := .ok repos6
    getRateLimitStatus := .ok { remaining := 5, limit := 5000 }
    getRepositoryStarCount := fun _ => .ok 0
    updateRepositoryStarsCount := fun _ _ => .ok ()
    createStarEvent := fun _ _ _ => .ok ()
    getSubscribersForRepository := fun _ => .ok []
    sendStarNotification := fun _ _ _ _ _ => .ok ()
    hasBot := true }

/-- Collaborators where the fetch for `badRepo` rejects and every other fetch
resolves with 50 stars. -/
def envFetchFail : Env :=
  { getAllRepositories := .ok [sampleRepo 1 10, badRepo, sampleRepo 3 10]
    getRateLimitStatus := .ok { remaining := 5000, limit := 5000 }
    getRepositoryStarCount := fun name =>
      if name = "bad/repo" then .error "Not Found" else .ok 50
    updateRepositoryStarsCount := fun _ _ => .ok ()
    createStarEvent := fun _ _ _ => .ok ()
    getSubscribersForRepository := fun _ => .ok []
    sendStarNotification := fun _ _ _ _ _ => .ok ()
    hasBot := true }

/-- A batch containing the failing repository between two healthy ones. -/
def batch3 : List Repository := [sampleRepo 1 10, badRepo, sampleRepo 3 10]

/-- A sample Delta Event (100 → 103 stars). -/
def sampleEvent : StarChangeEvent :=
  { repositoryId := 1, fullName := "owner/repo",
    htmlUrl := "https://github.com/owner/repo",
    previousStars := 100, currentStars := 103, starsGained := 3 }

/-- Collaborators for the fan-out scenario: three subscribers, delivery to
chat 2 rejects, deliveries to chats 1 and 3 resolve. -/
def envFanout : Env :=
  { getAllRepositories := .ok [sampleRepo 1 100]
    getRateLimitStatus := .ok { remaining := 5000, limit := 5000 }
    getRepositoryStarCount := fun _ => .ok 103
    updateRepositoryStarsCount := fun _ _ => .ok ()
    createStarEvent := fun _ _ _ => .ok ()
    getSubscribersForRepository := fun _ => .ok [1, 2, 3]
    sendStarNotification := fun chatId _ _ _ _ =>
      if chatId = 2 then .error "403 blocked by user" else .ok ()
    hasBot := true }

/-- Collaborators with zero tracked repositories; the quota endpoint rejects,
which is irrelevant because it must never be consulted. -/
def envNoRepos : Env :=
  { getAllRepositories := .ok []
    getRateLimitStatus := .error "quota endpoint must not be reached"
    getRepositoryStarCount := fun _ => .error "no fetch may happen"
    updateRepositoryStarsCount := fun _ _ => .error "no write may happen"
    createStarEvent := fun _ _ _ => .error "no event may happen"
    getSubscribersForRepository := fun _ => .ok []
    sendStarNotification := fun _ _ _ _ _ => .ok ()
    hasBot := true }

/-! ### Helper lemmas about `chunkArray` -/

theorem chunkArray_nil {α : Type} (k : Nat) : chunkArray ([] : List α) k = [] := by
  simp [chunkArray]

theorem chunkArray_eq_cons {α : Type} (l : List α) (k : Nat) (hl : l ≠ []) (hk : k ≠ 0) :
    chunkArray l k = l.take k :: chunkArray (l.drop k) k := by
  cases l with
  | nil => exact absurd rfl hl
  | cons x xs => rw [chunkArray, if_neg hk]

theorem chunkArray_ne_nil {α : Type} (l : List α) (k : Nat) (hl : l ≠ []) (hk : k ≠ 0) :
    chunkArray l k ≠ [] := by
  rw [chunkArray_eq_cons l k hl hk]
  exact List.cons_ne_nil _ _

theorem chunkArray_flatten {α : Type} (k : Nat) (hk : k ≠ 0) :
    ∀ l : List α, (chunkArray l k).flatten = l
  | [] => by simp [chunkArray]
  | x :: xs => by
    rw [chunkArray_eq_cons (x :: xs) k (List.cons_ne_nil x xs) hk, List.flatten_cons,
      chunkArray_flatten k hk ((x :: xs).drop k), List.take_append_drop]
termination_by l => l.length
decreasing_by
  simp only [List.length_drop, List.length_cons]
  omega

theorem chunkArray_length {α : Type} (k : Nat) (hk : k ≠ 0) :
    ∀ l : List α, (chunkArray l k).length = (l.length + k - 1) / k
  | [] => by
    rw [chunkArray_nil]
    simp only [List.length_nil]
    exact (Nat.div_eq_of_lt (by omega)).symm
  | x :: xs => by
    rw [chunkArray_eq_cons (x :: xs) k (List.cons_ne_nil x xs) hk, List.length_cons,
      chunkArray_length k hk ((x :: xs).drop k), List.length_drop, List.length_cons]
    rcases Nat.lt_or_ge k (xs.length + 1) with h | h
    · have h1 : xs.length + 1 - k + k - 1 = xs.length := by omega
      have h2 : xs.length + 1 + k - 1 = xs.length + k := by omega
      rw [h1, h2, Nat.add_div_right _ (Nat.pos_of_ne_zero hk)]
    · have h1 : xs.length + 1 - k + k - 1 = k - 1 := by omega
      have h2 : xs.length + 1 + k - 1 = xs.length + k := by omega
      rw [h1, h2, Nat.add_div_right _ (Nat.pos_of_ne_zero hk),
        Nat.div_eq_of_lt (by omega), Nat.div_eq_of_lt (by omega)]
termination_by l => l.length
decreasing_by
  simp only [List.length_drop, List.length_cons]
  omega

theorem chunkArray_mem_length {α : Type} (k : Nat) (hk : k ≠ 0) :
    ∀ l : List α, ∀ c ∈ chunkArray l k, 0 < c.length ∧ c.length ≤ k
  | [] => by simp [chunkArray]
  | x :: xs => by
    intro c hc
    rw [chunkArray_eq_cons (x :: xs) k (List.cons_ne_nil x xs) hk] at hc
    rcases List.mem_cons.mp hc with h | h
    · subst h
      simp only [List.length_take, List.length_cons]
      omega
    · exact chunkArray_mem_length k hk ((x :: xs).drop k) c h
termination_by l => l.length
decreasing_by
  simp only [List.length_drop, List.length_cons]
  omega

theorem chunkArray_dropLast_length {α : Type} (k : Nat) (hk : k ≠ 0) :
    ∀ l : List α, ∀ c ∈ (chunkArray l k).dropLast, c.length = k
  | [] => by simp [chunkArray]
  | x :: xs => by
    intro c hc
    rw [chunkArray_eq_cons (x :: xs) k (List.cons_ne_nil x xs) hk] at hc
    by_cases hd : (x :: xs).drop k = []
    · rw [hd, chunkArray_nil] at hc
      simp at hc
    · have hrest := chunkArray_ne_nil ((x :: xs).drop k) k hd hk
      rcases hr : chunkArray ((x :: xs).drop k) k with _ | ⟨r, rs⟩
      · exact absurd hr hrest
      · rw [hr, List.dropLast_cons₂] at hc
        rcases List.mem_cons.mp hc with h | h
        · subst h
          have hlen : k ≤ (x :: xs).length := by
            by_contra hcon
            exact hd (List.drop_eq_nil_of_le (by omega))
          exact List.length_take_of_le hlen
        · rw [← hr] at h
          exact chunkArray_dropLast_length k hk ((x :: xs).drop k) c h
termination_by l => l.length
decreasing_by
  simp only [List.length_drop, List.length_cons]
  omega

theorem chunkArray_dvd_length {α : Type} (k : Nat) (hk : k ≠ 0) :
    ∀ l : List α, k ∣ l.length → ∀ c ∈ chunkArray l k, c.length = k
  | [] => by simp [chunkArray]
  | x :: xs => by
    intro hdvd c hc
    rw [chunkArray_eq_cons (x :: xs) k (List.cons_ne_nil x xs) hk] at hc
    have hklen : k ≤ (x :: xs).length := by
      rcases hdvd with ⟨m, hm⟩
      rcases m with _ | m
      · rw [Nat.mul_zero] at hm
        simp at hm
      · rw [hm]
        calc k = k * 1 := (Nat.mul_one k).symm
        _ ≤ k * (m + 1) := Nat.mul_le_mul_left k (by omega)
    rcases List.mem_cons.mp hc with h | h
    · subst h
      exact List.length_take_of_le hklen
    · have : k ∣ ((x :: xs).drop k).length := by
        rw [List.length_drop]
        exact Nat.dvd_sub' hdvd dvd_rfl
      exact chunkArray_dvd_length k hk ((x :: xs).drop k) this c h
termination_by l => l.length
decreasing_by
  simp only [List.length_drop, List.length_cons]
  omega

/-! ### Helper lemmas about per-entity, batch and fan-out traces -/

theorem processRepo_fetch_mem (env : Env) (repo : Repository) :
    Effect.fetch repo.id ∈ (processRepo env repo).1 := by
  unfold processRepo
  repeat' split
  all_goals simp

theorem processRepo_filter_sleep (env : Env) (repo : Repository) :
    (processRepo env repo).1.filter Effect.isSleep = [] := by
  unfold processRepo
  repeat' split
  all_goals rfl

theorem processBatch_countSleeps (env : Env) (batch : List Repository) :
    countSleeps (processBatch env batch).1 = 0 := by
  unfold processBatch countSleeps
  induction batch with
  | nil => rfl
  | cons r rs ih =>
    simp only [List.flatMap_cons, List.filter_append, List.length_append,
      processRepo_filter_sleep env r, List.length_nil] at *
    omega

theorem intercalate_cons_cons {α : Type} (sep t t' : List α) (ts : List (List α)) :
    List.intercalate sep (t :: t' :: ts) = t ++ sep ++ List.intercalate sep (t' :: ts) := by
  simp [List.intercalate, List.intersperse]

theorem processBatches_trace (env : Env) :
    ∀ bs : List (List Repository),
      (processBatches env bs).1 =
        List.intercalate [Effect.sleep 1000] (bs.map (fun b => (processBatch env b).1))
  | [] => by simp [processBatches, List.intercalate]
  | [b] => by simp [processBatches, List.intercalate]
  | b :: b' :: bs => by
    simp only [processBatches, List.map_cons]
    rw [intercalate_cons_cons]
    rw [← List.map_cons (fun b => (processBatch env b).1) b' bs]
    rw [← processBatches_trace env (b' :: bs)]
    simp

theorem processBatches_events (env : Env) :
    ∀ bs : List (List Repository),
      (processBatches env bs).2 = (bs.map (fun b => (processBatch env b).2)).flatten
  | [] => by simp [processBatches]
  | [b] => by simp [processBatches]
  | b :: b' :: bs => by
    simp only [processBatches]
    rw [processBatches_events env (b' :: bs)]
    simp

theorem processBatches_countSleeps (env : Env) :
    ∀ bs : List (List Repository),
      countSleeps (processBatches env bs).1 = bs.length - 1
  | [] => rfl
  | [b] => by
    simp only [processBatches, List.length_singleton]
    rw [processBatch_countSleeps env b]
  | b :: b' :: bs => by
    simp only [processBatches]
    unfold countSleeps
    rw [List.filter_append, List.filter_cons]
    simp only [Effect.isSleep, if_true, List.length_append, List.length_cons]
    have h1 := processBatch_countSleeps env b
    have h2 := processBatches_countSleeps env (b' :: bs)
    unfold countSleeps at h1 h2
    simp only [List.length_cons] at h2 ⊢
    omega

theorem notifyEvent_subsQuery_mem (env : Env) (ev : StarChangeEvent) :
    Effect.subsQuery ev.repositoryId ∈ notifyEvent env ev := by
  unfold notifyEvent
  cases env.getSubscribersForRepository ev.repositoryId <;> simp

theorem notifyEvent_filter_eq_nil (env : Env) (ev : StarChangeEvent)
    (p : Effect → Bool)
    (hq : ∀ id, p (Effect.subsQuery id) = false)
    (hs : ∀ c id g t, p (Effect.send c id g t) = false)
    (hx : ∀ c id, p (Effect.sendFail c id) = false) :
    (notifyEvent env ev).filter p = [] := by
  unfold notifyEvent
  cases env.getSubscribersForRepository ev.repositoryId with
  | error e => simp [hq]
  | ok subs =>
    rw [List.filter_cons]
    simp only [hq, if_false, Bool.false_eq_true]
    induction subs with
    | nil => rfl
    | cons c cs ih =>
      rw [List.map_cons, List.filter_cons]
      cases env.sendStarNotification c ev.fullName ev.htmlUrl ev.starsGained ev.currentStars with
      | ok u => simpa [hs] using ih
      | error e => simpa [hx] using ih

theorem flatMap_notifyEvent_filter_eq_nil (env : Env) (events : List StarChangeEvent)
    (p : Effect → Bool)
    (hq : ∀ id, p (Effect.subsQuery id) = false)
    (hs : ∀ c id g t, p (Effect.send c id g t) = false)
    (hx : ∀ c id, p (Effect.sendFail c id) = false) :
    (events.flatMap (notifyEvent env)).filter p = [] := by
  induction events with
  | nil => rfl
  | cons ev evs ih =>
    rw [List.flatMap_cons, List.filter_append,
      notifyEvent_filter_eq_nil env ev p hq hs hx, List.nil_append]
    exact ih

theorem notifySubscribers_filter_eq_nil (env : Env) (events : List StarChangeEvent)
    (p : Effect → Bool)
    (hq : ∀ id, p (Effect.subsQuery id) = false)
    (hs : ∀ c id g t, p (Effect.send c id g t) = false)
    (hx : ∀ c id, p (Effect.sendFail c id) = false) :
    (notifySubscribers env events).filter p = [] := by
  unfold notifySubscribers
  split
  · rfl
  · exact flatMap_notifyEvent_filter_eq_nil env events p hq hs hx

/-! ### Claim theorems -/

/-- C4: for every list of N entities and every positive group size S,
`chunkArray entities S` terminates (it is a total Lean function) and produces
`⌈N/S⌉` groups in order whose concatenation reproduces the input exactly;
every group is non-empty and of size at most S, every group except possibly
the last has size exactly S, and when S divides N every group (the last
included) has size exactly S.  The function is pure: it reads nothing beyond
its two arguments. -/
theorem claim_C4_chunkArray_contract (α : Type) (l : List α) (S : Nat) (hS : 0 < S) :
    (chunkArray l S).length = (l.length + S - 1) / S ∧
    (chunkArray l S).flatten = l ∧
    (∀ c ∈ (chunkArray l S).dropLast, c.length = S) ∧
    (∀ c ∈ chunkArray l S, 0 < c.length ∧ c.length ≤ S) ∧
    (S ∣ l.length → ∀ c ∈ chunkArray l S, c.length = S) :=
  ⟨chunkArray_length S hS.ne' l, chunkArray_flatten S hS.ne' l,
   chunkArray_dropLast_length S hS.ne' l, chunkArray_mem_length S hS.ne' l,
   chunkArray_dvd_length S hS.ne' l⟩

/-- Witness for C4 at `l = [0,1,2,3,4]`, `S = 2`. -/
theorem claim_C4_chunkArray_contract_witness :
    0 < 2 ∧
    ((chunkArray [0, 1, 2, 3, 4] 2).length = (([0, 1, 2, 3, 4] : List Nat).length + 2 - 1) / 2 ∧
     (chunkArray [0, 1, 2, 3, 4] 2).flatten = [0, 1, 2, 3, 4] ∧
     (∀ c ∈ (chunkArray [0, 1, 2, 3, 4] 2).dropLast, c.length = 2) ∧
     (∀ c ∈ chunkArray [0, 1, 2, 3, 4] 2, 0 < c.length ∧ c.length ≤ 2) ∧
     (2 ∣ ([0, 1, 2, 3, 4] : List Nat).length → ∀ c ∈ chunkArray [0, 1, 2, 3, 4] 2, c.length = 2)) :=
  ⟨by decide, claim_C4_chunkArray_contract Nat [0, 1, 2, 3, 4] 2 (by decide)⟩

/-- C1: per tracked entity, when the fetch resolves with `v` and the store
calls resolve, the Delta Detector writes the store iff `v` differs from the
stored value, records a Delta Event iff `v` strictly exceeds it, and the
event's magnitude (`starsGained`) is `v - stored`; hence a decrease yields
one write and no event, and an equal value yields neither. -/
theorem claim_C1_delta_detector (env : Env) (repo : Repository) (v : Nat)
    (hf : env.getRepositoryStarCount repo.full_name = .ok v)
    (hu : env.updateRepositoryStarsCount repo.id v = .ok ())
    (hc : env.createStarEvent repo.id v repo.stars_count = .ok ()) :
    countWrites (processRepo env repo).1 = (if v = repo.stars_count then 0 else 1) ∧
    countRecords (processRepo env repo).1 = (if repo.stars_count < v then 1 else 0) ∧
    ((processRepo env repo).2.isSome = true ↔ repo.stars_count < v) ∧
    (∀ ev ∈ (processRepo env repo).2,
      ev.previousStars = repo.stars_count ∧ ev.currentStars = v ∧
      ev.starsGained = v - repo.stars_count) := by
  rcases Nat.lt_trichotomy repo.stars_count v with h | h | h
  · have hne : ¬(v = repo.stars_count) := by omega
    simp only [processRepo, hf, hu, hc, if_neg hne, if_pos h]
    refine ⟨rfl, rfl, by simpa using h, ?_⟩
    intro ev hev
    simp only [Option.mem_def, Option.some.injEq] at hev
    subst hev
    exact ⟨rfl, rfl, rfl⟩
  · have hnlt : ¬(repo.stars_count < v) := by omega
    simp only [processRepo, hf, if_pos h.symm]
    refine ⟨rfl, by rw [if_neg hnlt]; rfl, by simpa using hnlt, ?_⟩
    intro ev hev
    simp at hev
  · have hne : ¬(v = repo.stars_count) := by omega
    have hnlt : ¬(repo.stars_count < v) := by omega
    simp only [processRepo, hf, hu, if_neg hne, if_neg hnlt]
    refine ⟨rfl, rfl, by simpa using hnlt, ?_⟩
    intro ev hev
    simp at hev

/-- Witness for C1: a repository stored at 100 stars whose fetch resolves with
103 (the spec's end-to-end numbers). -/
theorem claim_C1_delta_detector_witness :
    (envDelta.getRepositoryStarCount (sampleRepo 1 100).full_name = .ok 103 ∧
     envDelta.updateRepositoryStarsCount (sampleRepo 1 100).id 103 = .ok () ∧
     envDelta.createStarEvent (sampleRepo 1 100).id 103 (sampleRepo 1 100).stars_count = .ok ()) ∧
    (countWrites (processRepo envDelta (sampleRepo 1 100)).1 =
      (if 103 = (sampleRepo 1 100).stars_count then 0 else 1) ∧
     countRecords (processRepo envDelta (sampleRepo 1 100)).1 =
      (if (sampleRepo 1 100).stars_count < 103 then 1 else 0) ∧
     ((processRepo envDelta (sampleRepo 1 100)).2.isSome = true ↔
      (sampleRepo 1 100).stars_count < 103) ∧
     (∀ ev ∈ (processRepo envDelta (sampleRepo 1 100)).2,
       ev.previousStars = (sampleRepo 1 100).stars_count ∧ ev.currentStars = 103 ∧
       ev.starsGained = 103 - (sampleRepo 1 100).stars_count)) :=
  ⟨⟨rfl, rfl, rfl⟩, claim_C1_delta_detector envDelta (sampleRepo 1 100) 103 rfl rfl rfl⟩

/-- C2: the re-entrancy guard: a call that finds the in-progress flag set
does no work (empty trace), returns the empty event list without error, and
leaves the flag as it found it; a call that finds the flag clear resolves
with the flag cleared again on every exit path (the `finally`), whatever the
collaborators do. -/
theorem claim_C2_reentrancy_guard (env : Env) :
    pollRepositories env true = .ok ([], [], true) ∧
    (∃ events trace, pollRepositories env false = .ok (events, trace, false)) := by
  constructor
  · rfl
  · unfold pollRepositories
    cases h : (pollTry env).2 with
    | ok events => exact ⟨events, (pollTry env).1, by simp [h]⟩
    | error e => exact ⟨[], (pollTry env).1, by simp [h]⟩

/-- C3: when the repositories list is non-empty and the quota check reports
fewer remaining calls than there are tracked repositories, the cycle aborts
cleanly: the call resolves (no error) with an empty event list, and the trace
contains no entity fetch, no store write and no Delta Event record — only the
quota query itself. -/
theorem claim_C3_quota_gate (env : Env) (repos : List Repository) (rl : RateLimitStatus)
    (hr : env.getAllRepositories = .ok repos)
    (hn : repos ≠ [])
    (hq : env.getRateLimitStatus = .ok rl)
    (hlt : rl.remaining < repos.length) :
    ∃ t, pollRepositories env false = .ok ([], t, false) ∧
      countFetches t = 0 ∧ countWrites t = 0 ∧ countRecords t = 0 := by
  refine ⟨[Effect.quotaCheck], ?_, rfl, rfl, rfl⟩
  have hlen : ¬(repos.length = 0) := by
    simpa [List.length_eq_zero] using hn
  simp only [pollRepositories, pollTry, hr, hq, if_neg hlen, if_pos hlt]
  rfl

/-- Witness for C3: 6 tracked repositories, 5 remaining API calls (the
spec's own numbers). -/
theorem claim_C3_quota_gate_witness :
    (envQuota.getAllRepositories = .ok repos6 ∧ repos6 ≠ [] ∧
     envQuota.getRateLimitStatus = .ok { remaining := 5, limit := 5000 } ∧
     (5 : Nat) < repos6.length) ∧
    (∃ t, pollRepositories envQuota false = .ok ([], t, false) ∧
      countFetches t = 0 ∧ countWrites t = 0 ∧ countRecords t = 0) :=
  ⟨⟨rfl, by decide, rfl, by decide⟩,
   claim_C3_quota_gate envQuota repos6 { remaining := 5, limit := 5000 }
     rfl (by decide) rfl (by decide)⟩

/-- C10: when the store reports zero tracked repositories, `pollRepositories`
resolves immediately with the empty event list and an empty trace — in
particular the quota endpoint is never queried, no entity is fetched and no
store write happens. -/
theorem claim_C10_no_repositories (env : Env)
    (hr : env.getAllRepositories = .ok []) :
    ∃ t, pollRepositories env false = .ok ([], t, false) ∧
      countQuotaChecks t = 0 ∧ countFetches t = 0 ∧ countWrites t = 0 := by
  refine ⟨[], ?_, rfl, rfl, rfl⟩
  simp only [pollRepositories, pollTry, hr, List.length_nil, if_pos rfl]
  rfl

/-- Witness for C10: collaborators whose quota endpoint (and every other
collaborator call) rejects, showing none of them is reached. -/
theorem claim_C10_no_repositories_witness :
    envNoRepos.getAllRepositories = .ok [] ∧
    (∃ t, pollRepositories envNoRepos false = .ok ([], t, false) ∧
      countQuotaChecks t = 0 ∧ countFetches t = 0 ∧ countWrites t = 0) :=
  ⟨rfl, claim_C10_no_repositories envNoRepos rfl⟩

/-- C6: a rejected fetch for one repository of a group is caught per entity:
that repository contributes only its fetch attempt to the trace (no store
write, no Delta Event record) and no event, while every repository of the
group — the failing one included — still gets its fetch attempted. -/
theorem claim_C6_fetch_failure_isolated (env : Env) (batch : List Repository)
    (repo : Repository) (msg : String)
    (_hmem : repo ∈ batch)
    (hf : env.getRepositoryStarCount repo.full_name = .error msg) :
    (processRepo env repo).1 = [Effect.fetch repo.id] ∧
    (processRepo env repo).2 = none ∧
    (∀ r ∈ batch, Effect.fetch r.id ∈ (processBatch env batch).1) := by
  refine ⟨?_, ?_, ?_⟩
  · simp only [processRepo, hf]
  · simp only [processRepo, hf]
  · intro r hr
    unfold processBatch
    exact List.mem_flatMap.mpr ⟨r, hr, processRepo_fetch_mem env r⟩

/-- Witness for C6: a batch of three repositories whose middle element's
fetch rejects. -/
theorem claim_C6_fetch_failure_isolated_witness :
    (badRepo ∈ batch3 ∧
     envFetchFail.getRepositoryStarCount badRepo.full_name = .error "Not Found") ∧
    ((processRepo envFetchFail badRepo).1 = [Effect.fetch badRepo.id] ∧
     (processRepo envFetchFail badRepo).2 = none ∧
     (∀ r ∈ batch3, Effect.fetch r.id ∈ (processBatch envFetchFail batch3).1)) :=
  ⟨⟨by decide, rfl⟩,
   claim_C6_fetch_failure_isolated envFetchFail batch3 badRepo "Not Found" (by decide) rfl⟩

/-- C5: fan-out failure isolation: every subscriber whose delivery resolves
receives its notification, regardless of how deliveries to the other
subscribers of the same event behave; every event of the cycle still gets its
subscriber lookup; and the failing event's whole fan-out trace is part of the
cycle's fan-out trace. -/
theorem claim_C5_fanout_isolation (env : Env) (events : List StarChangeEvent)
    (event : StarChangeEvent) (subs : List Int)
    (hbot : env.hasBot = true)
    (hmem : event ∈ events)
    (hsubs : env.getSubscribersForRepository event.repositoryId = .ok subs) :
    (∀ c ∈ subs,
      env.sendStarNotification c event.fullName event.htmlUrl event.starsGained
          event.currentStars = .ok () →
      Effect.send c event.repositoryId event.starsGained event.currentStars ∈
        notifyEvent env event) ∧
    (∀ e ∈ events, Effect.subsQuery e.repositoryId ∈ notifySubscribers env events) ∧
    (∀ ef ∈ notifyEvent env event, ef ∈ notifySubscribers env events) := by
  have hne : events ≠ [] := by
    rintro rfl
    simp at hmem
  have hnotify : notifySubscribers env events = events.flatMap (notifyEvent env) := by
    unfold notifySubscribers
    rw [if_neg]
    simp [hbot, List.length_eq_zero, hne]
  refine ⟨?_, ?_, ?_⟩
  · intro c hc hok
    simp only [notifyEvent, hsubs]
    refine List.mem_cons_of_mem _ (List.mem_map.mpr ⟨c, hc, ?_⟩)
    rw [hok]
  · intro e he
    rw [hnotify]
    exact List.mem_flatMap.mpr ⟨e, he, notifyEvent_subsQuery_mem env e⟩
  · intro ef hef
    rw [hnotify]
    exact List.mem_flatMap.mpr ⟨event, hmem, hef⟩

/-- Witness for C5: one Delta Event with three subscribers where delivery to
chat 2 rejects; chats 1 and 3 still receive their notification. -/
theorem claim_C5_fanout_isolation_witness :
    (envFanout.hasBot = true ∧ sampleEvent ∈ [sampleEvent] ∧
     envFanout.getSubscribersForRepository sampleEvent.repositoryId = .ok [1, 2, 3]) ∧
    ((∀ c ∈ ([1, 2, 3] : List Int),
      envFanout.sendStarNotification c sampleEvent.fullName sampleEvent.htmlUrl
          sampleEvent.starsGained sampleEvent.currentStars = .ok () →
      Effect.send c sampleEvent.repositoryId sampleEvent.starsGained
          sampleEvent.currentStars ∈ notifyEvent envFanout sampleEvent) ∧
     (∀ e ∈ [sampleEvent],
      Effect.subsQuery e.repositoryId ∈ notifySubscribers envFanout [sampleEvent]) ∧
     (∀ ef ∈ notifyEvent envFanout sampleEvent,
      ef ∈ notifySubscribers envFanout [sampleEvent])) :=
  ⟨⟨rfl, List.mem_singleton.mpr rfl, rfl⟩,
   claim_C5_fanout_isolation envFanout [sampleEvent] sampleEvent [1, 2, 3]
     rfl (List.mem_singleton.mpr rfl) rfl⟩

/-- C7: no rejection escapes a cycle: whatever the collaborators do and
whatever the state of the in-progress flag, `pollRepositories` resolves (with
a possibly empty event list) and `runPollingCycle` resolves — neither ever
returns an `Except.error`. -/
theorem claim_C7_no_rejection (env : Env) (isPolling : Bool) :
    (∃ v, pollRepositories env isPolling = .ok v) ∧
    (∃ w, runPollingCycle env isPolling = .ok w) := by
  have h1 : ∃ v, pollRepositories env isPolling = .ok v := by
    unfold pollRepositories
    cases isPolling with
    | true => exact ⟨([], [], true), rfl⟩
    | false =>
      cases hp : (pollTry env).2 with
      | ok events => exact ⟨(events, (pollTry env).1, false), by simp [hp]⟩
      | error e => exact ⟨([], (pollTry env).1, false), by simp [hp]⟩
  refine ⟨h1, ?_⟩
  obtain ⟨⟨events, trace, flag⟩, hv⟩ := h1
  unfold runPollingCycle
  rw [hv]
  exact ⟨(trace ++ notifySubscribers env events, flag), rfl⟩

/-- C8: groups are processed strictly sequentially — the cycle's trace is
exactly the per-group traces in group order, separated by single 1000 ms
sleeps (none after the last group), so a run with K groups sleeps exactly
K − 1 times — and the accumulated events are the per-group events
concatenated in group order. -/
theorem claim_C8_sequential_batches (env : Env) (batches : List (List Repository)) :
    (processBatches env batches).1 =
      List.intercalate [Effect.sleep 1000]
        (batches.map (fun b => (processBatch env b).1)) ∧
    countSleeps (processBatches env batches).1 = batches.length - 1 ∧
    (processBatches env batches).2 =
      (batches.map (fun b => (processBatch env b).2)).flatten :=
  ⟨processBatches_trace env batches, processBatches_countSleeps env batches,
   processBatches_events env batches⟩

/-- C9: the Fan-out Notifier never mutates persisted state: for any events and
any collaborator behaviour its trace contains no store write, no Delta Event
record, no entity fetch, no quota query and no sleep — only subscriber-set
reads and external send calls (successful or failed) can appear. -/
theorem claim_C9_notifier_frame (env : Env) (events : List StarChangeEvent) :
    countWrites (notifySubscribers env events) = 0 ∧
    countRecords (notifySubscribers env events) = 0 ∧
    countFetches (notifySubscribers env events) = 0 ∧
    countQuotaChecks (notifySubscribers env events) = 0 ∧
    countSleeps (notifySubscribers env events) = 0 := by
  refine ⟨?_, ?_, ?_, ?_, ?_⟩ <;>
  · first
    | (unfold countWrites
       rw [notifySubscribers_filter_eq_nil env events Effect.isWrite
         (fun _ => rfl) (fun _ _ _ _ => rfl) (fun _ _ => rfl)])
    | (unfold countRecords
       rw [notifySubscribers_filter_eq_nil env events Effect.isRecord
         (fun _ => rfl) (fun _ _ _ _ => rfl) (fun _ _ => rfl)])
    | (unfold countFetches
       rw [notifySubscribers_filter_eq_nil env events Effect.isFetch
         (fun _ => rfl) (fun _ _ _ _ => rfl) (fun _ _ => rfl)])
    | (unfold countQuotaChecks
       rw [notifySubscribers_filter_eq_nil env events Effect.isQuotaCheck
         (fun _ => rfl) (fun _ _ _ _ => rfl) (fun _ _ => rfl)])
    | (unfold countSleeps
       rw [notifySubscribers_filter_eq_nil env events Effect.isSleep
         (fun _ => rfl) (fun _ _ _ _ => rfl) (fun _ _ => rfl)])
    rfl
